import Mathlib

/-!
Verification of the rekordbox utility scripts (playlist_to_sheets.py,
spotify_recent_likes.py, xml_to_sheets.py) against their natural-language
specification.  The Python code is shallowly embedded: strings are `String`
or `List Char`, dictionaries are structures with `Option` fields for
nullable entries, the spreadsheet service is modelled as a list of
worksheets together with an event trace, and exceptions are `Except` or
sum-type outcomes.
-/

/-! ### Python string primitives -/

/-- Whitespace characters recognised by Python's `str.strip()` and the regex
class, restricted to the ASCII range used by this repository. -/
def isPySpace (c : Char) : Bool :=
  c = ' ' || c = '\t' || c = '\n' || c = '\r' || c = '\x0b' || c = '\x0c'

/-- Model of the regex class backslash-w restricted to ASCII: alphanumeric or
underscore. -/
def isWordChar (c : Char) : Bool :=
  c.isAlphanum || c = '_'

/-- Characters kept by the sheet-name sanitization regex in
`create_sheets_worksheet`: word characters, whitespace, or hyphen. -/
def keepSheetChar (c : Char) : Bool :=
  isWordChar c || isPySpace c || c = '-'

/-- Model of Python `s.strip()`: drop leading and trailing whitespace. -/
def pyStrip (l : List Char) : List Char :=
  ((l.dropWhile isPySpace).reverse.dropWhile isPySpace).reverse

/-- Model of Python `s.split(sep)[0]` for a one-character separator: the
longest separator-free leading segment. -/
def pySplitHead (sep : Char) (l : List Char) : List Char :=
  l.takeWhile (fun c => c ≠ sep)

/-- `startsWith n h` holds when `n` is a leading segment of `h`. -/
def startsWith : List Char → List Char → Bool
  | [], _ => true
  | _ :: _, [] => false
  | a :: as, b :: bs => a == b && startsWith as bs

/-- `occursIn n h` holds when `n` appears as a contiguous segment of `h`. -/
def occursIn (needle : List Char) : List Char → Bool
  | [] => startsWith needle []
  | c :: t => startsWith needle (c :: t) || occursIn needle t

/-! ### Regex model for `extract_playlist_id`

Both patterns in the source are a literal followed by `([a-zA-Z0-9]+)`:
`re.search` finds the leftmost position where the literal matches and is
followed by at least one alphanumeric character, and the greedy `+` captures
the maximal alphanumeric run there. -/

/-- Try to match `lit` followed by one-or-more alphanumerics at the head of
`s`, returning the captured alphanumeric run. -/
def reMatchAt (lit : List Char) (s : List Char) : Option (List Char) :=
  if startsWith lit s then
    let run := (s.drop lit.length).takeWhile Char.isAlphanum
    if run.isEmpty then none else some run
  else none

/-- Leftmost match of `lit` followed by one-or-more alphanumerics anywhere in
the string; models `re.search(lit + "([a-zA-Z0-9]+)", s)`. -/
def reSearch (lit : List Char) : List Char → Option (List Char)
  | [] => reMatchAt lit []
  | c :: t =>
    match reMatchAt lit (c :: t) with
    | some r => some r
    | none => reSearch lit t

/-- The `for pattern in patterns` loop of `extract_playlist_id`: return the
first pattern's capture that succeeds. -/
def tryPatterns : List (List Char) → List Char → Option (List Char)
  | [], _ => none
  | p :: ps, s =>
    match reSearch p s with
    | some r => some r
    | none => tryPatterns ps s

/-- Embedding of `extract_playlist_id` from playlist_to_sheets.py: strip the
query string and fragment with `split` calls, then try the URL-path pattern
and the URI pattern in order, raising `ValueError` (modelled as `.error`)
when neither matches. -/
def extract_playlist_id (url : String) : Except String String :=
  let stripped := pySplitHead '#' (pySplitHead '?' url.data)
  match tryPatterns [("playlist/".data), ("playlist:".data)] stripped with
  | some m => .ok (String.mk m)
  | none => .error ("Could not extract playlist ID from URL: " ++ String.mk stripped)

/-- Identifier resolution as worded by the specification: strip any query
string and fragment, return the identifier captured by the URL-path form
`playlist/<ID>` when it matches, otherwise by the URI form `playlist:<ID>`
when it matches, and fail when neither matches. -/
def spec_extract_id (url : String) : Except String String :=
  let stripped := url.data.takeWhile (fun c => c ≠ '?' && c ≠ '#')
  match reSearch "playlist/".data stripped with
  | some m => .ok (String.mk m)
  | none =>
    match reSearch "playlist:".data stripped with
    | some m => .ok (String.mk m)
    | none => .error ("Could not extract playlist ID from URL: " ++ String.mk stripped)

/-! ### Playlist data model (`get_playlist_data`) -/

/-- One entry of a raw track's `artists` list: a dictionary with a `name`
field. -/
structure RawArtist where
  name : String
deriving DecidableEq

/-- A raw track dictionary as returned by the playlist-tracks endpoint:
`name` (nullable), `artists`, and `external_urls["spotify"]`. -/
structure RawTrack where
  name : Option String
  artists : List RawArtist
  spotify_url : String
deriving DecidableEq

/-- One entry of a page's `items` list: its `track` payload may be null. -/
structure RawItem where
  track : Option RawTrack
deriving DecidableEq

/-- The normalized row data kept per track by `get_playlist_data`: the
`"{name} - {artists}"` display string and the external link. -/
structure TrackRow where
  song : String
  spotify_url : String
deriving DecidableEq

/-- Python truthiness of `item['track']['name']`: false for null and for the
empty string. -/
def truthyName : Option String → Bool
  | none => false
  | some s => !s.isEmpty

/-- The normalization body of the loop in `get_playlist_data`: join the
artist names with a comma-space separator and build the display string. -/
def normTrack (t : RawTrack) : TrackRow :=
  let artists := String.intercalate ", " (t.artists.map (fun a => a.name))
  { song := (t.name.getD "") ++ " - " ++ artists, spotify_url := t.spotify_url }

/-- The guard `item['track'] and item['track']['name']` of the loop. -/
def keepItem (it : RawItem) : Bool :=
  match it.track with
  | some t => truthyName t.name
  | none => false

/-- Total normalization of an item, defaulting the (never used) null-track
case; coincides with `normTrack` on every kept item. -/
def normItemD (it : RawItem) : TrackRow :=
  match it.track with
  | some t => normTrack t
  | none => { song := "", spotify_url := "" }

/-- Embedding of the per-page loop of `get_playlist_data`: each item with a
non-null track and a truthy name contributes one normalized row, in order;
all other items are skipped. -/
def processItems : List RawItem → List TrackRow
  | [] => []
  | item :: rest =>
    match item.track with
    | some t => if truthyName t.name then normTrack t :: processItems rest else processItems rest
    | none => processItems rest

/-- One playlist-tracks API page: its `items` and its `next` indicator (a
URL when a further page exists, null otherwise). -/
structure SpotifyPage where
  items : List RawItem
  next : Option String
deriving DecidableEq

/-- A well-formed finite page sequence: every page before the last carries a
`next` indicator and the last does not. -/
def goodChain : SpotifyPage → List SpotifyPage → Bool
  | p, [] => p.next.isNone
  | p, q :: qs => p.next.isSome && goodChain q qs

/-- Embedding of the pagination loop of `get_playlist_data` over the pages
the API would successively serve: process the current page, then call
`sp.next` exactly when the `next` indicator is set.  Returns the accumulated
rows together with the number of `sp.next` requests issued. -/
def fetchAllPages : SpotifyPage → List SpotifyPage → List TrackRow × Nat
  | page, rest =>
    let ts := processItems page.items
    match page.next, rest with
    | some _, q :: qs =>
      let r := fetchAllPages q qs
      (ts ++ r.1, r.2 + 1)
    | some _, [] => (ts, 1)
    | none, _ => (ts, 0)

/-! ### Spreadsheet sink model -/

/-- A spreadsheet cell: the playlist variant writes integer indices next to
string fields. -/
inductive Cell where
  | nat (n : Nat)
  | str (s : String)
deriving DecidableEq

/-- The `for i, track in enumerate(tracks, 1)` loop of
`create_sheets_worksheet`: data rows `[i, song, spotify_url]` with a running
1-based counter. -/
def buildRows (i : Nat) : List TrackRow → List (List Cell)
  | [] => []
  | t :: ts => [Cell.nat i, Cell.str t.song, Cell.str t.spotify_url] :: buildRows (i + 1) ts

/-- The full cell payload written by `create_sheets_worksheet`: header row
followed by the enumerated data rows. -/
def sheetRows (tracks : List TrackRow) : List (List Cell) :=
  [Cell.str "Track #", Cell.str "Song", Cell.str "Spotify Link"] :: buildRows 1 tracks

/-- A worksheet of the spreadsheet service: title, declared dimensions, and
written values. -/
structure Worksheet (α : Type) where
  title : String
  nrows : Nat
  ncols : Nat
  values : List (List α)
deriving DecidableEq

/-- Observable actions issued against the spreadsheet service. -/
inductive SheetEvent (α : Type) where
  | deleted (name : String)
  | created (name : String) (rows cols : Nat)
  | updated (name : String) (payload : List (List α))
deriving DecidableEq

/-- The error raised by the worksheet lookup of the spreadsheet client. -/
inductive GsError where
  | worksheetNotFound
deriving DecidableEq

/-- Model of `spreadsheet.worksheet(name)`: the first worksheet with that
exact title, or a WorksheetNotFound error. -/
def gspread_worksheet {α : Type} (ss : List (Worksheet α)) (name : String) :
    Except GsError (Worksheet α) :=
  match ss.find? (fun w => w.title == name) with
  | some w => .ok w
  | none => .error .worksheetNotFound

/-- The shared try-delete / add / update sequence of both tabular sinks:
look the name up, delete the worksheet when found (swallowing the not-found
error), create a fresh worksheet with the given dimensions, and write the
payload at A1.  Returns the event trace and the final worksheet list. -/
def replaceWorksheetFlow {α : Type} [DecidableEq α] (ss : List (Worksheet α)) (name : String)
    (nrows ncols : Nat) (payload : List (List α)) :
    List (SheetEvent α) × List (Worksheet α) :=
  let cleared :=
    match gspread_worksheet ss name with
    | .ok old => ([SheetEvent.deleted name], ss.erase old)
    | .error .worksheetNotFound => ([], ss)
  (cleared.1 ++ [SheetEvent.created name nrows ncols, SheetEvent.updated name payload],
   cleared.2 ++ [{ title := name, nrows := nrows, ncols := ncols, values := payload }])

/-- Sheet-name sanitization of `create_sheets_worksheet`:
`re.sub` removes every character outside the allow-list, `strip` trims
whitespace, and names longer than 100 characters are cut to 100. -/
def sanitize_sheet_name (s : String) : String :=
  let cleaned := pyStrip (s.data.filter keepSheetChar)
  if cleaned.length > 100 then String.mk (cleaned.take 100) else String.mk cleaned

/-- Embedding of `create_sheets_worksheet` from playlist_to_sheets.py. -/
def create_sheets_worksheet (playlist_name : String) (tracks : List TrackRow)
    (ss : List (Worksheet Cell)) : List (SheetEvent Cell) × List (Worksheet Cell) :=
  replaceWorksheetFlow ss (sanitize_sheet_name playlist_name)
    (tracks.length + 1) 3 (sheetRows tracks)

/-- The fixed TRACK attribute allow-list of xml_to_sheets.py. -/
def FIELDS : List String :=
  ["TrackID", "Name", "Artist", "Album", "Genre", "TotalTime",
   "AverageBpm", "DateAdded", "PlayCount", "Rating", "Location"]

/-- A parsed TRACK element: its attribute mapping. -/
structure XmlTrack where
  attrib : List (String × String)
deriving DecidableEq

/-- The row built per TRACK element: `attrib.get(f, "")` over `FIELDS`. -/
def trackRow (t : XmlTrack) : List String :=
  FIELDS.map (fun f => ((t.attrib.lookup f).getD ""))

/-- All data rows of the file variant, in document order. -/
def xml_rows (tracks : List XmlTrack) : List (List String) :=
  tracks.map trackRow

/-- Embedding of the worksheet block of xml_to_sheets.py: unconditionally
replace-and-create the date-named worksheet and write header plus rows. -/
def xml_write_flow (sheet_name : String) (rows : List (List String))
    (ss : List (Worksheet String)) : List (SheetEvent String) × List (Worksheet String) :=
  replaceWorksheetFlow ss sheet_name (rows.length + 1) FIELDS.length (FIELDS :: rows)

/-- Outcome of the sink stage of `main` in playlist_to_sheets.py. -/
inductive PlaylistSinkOutcome where
  | skippedWithMessage (msg : String)
  | wrote (events : List (SheetEvent Cell)) (sheets : List (Worksheet Cell))
deriving DecidableEq

/-- The sink stage of `main` in playlist_to_sheets.py: with no tracks a
message is printed and the function returns before any worksheet work;
otherwise `create_sheets_worksheet` runs. -/
def playlist_main_sink (playlist_name : String) (tracks : List TrackRow)
    (ss : List (Worksheet Cell)) : PlaylistSinkOutcome :=
  if tracks.isEmpty then .skippedWithMessage "No tracks found in the playlist."
  else
    let r := create_sheets_worksheet playlist_name tracks ss
    .wrote r.1 r.2

/-! ### Liked-tracks variant (spotify_recent_likes.py) -/

/-- A parsed `added_at` timestamp (the fields used by the script's
formatting). -/
structure PyDateTime where
  year : Nat
  month : Nat
  day : Nat
  hour : Nat
  minute : Nat
deriving DecidableEq

/-- The `track` payload of a saved-tracks item. -/
structure LikedTrack where
  name : String
  artists : List RawArtist
  spotify_url : String
deriving DecidableEq

/-- One item of a `current_user_saved_tracks` response: `added_at` (already
parsed from its ISO-8601 form) and the track payload. -/
structure SavedItem where
  added_at : PyDateTime
  track : LikedTrack
deriving DecidableEq

/-- The dictionary appended per item by `fetch_recent_liked`. -/
structure ParsedLiked where
  title : String
  artists : String
  added_at : PyDateTime
  spotify_url : String
deriving DecidableEq

/-- The normalization body of the loop in `fetch_recent_liked`. -/
def parseSaved (it : SavedItem) : ParsedLiked :=
  { title := it.track.name,
    artists := String.intercalate ", " (it.track.artists.map (fun a => a.name)),
    added_at := it.added_at,
    spotify_url := it.track.spotify_url }

/-- Model of the Python slice `l[:k]` for an `int` bound `k`: a nonnegative
bound keeps the first `k` elements, a negative bound drops the last `-k`. -/
def pySliceTo {α : Type} (k : Int) (l : List α) : List α :=
  if 0 ≤ k then l.take k.toNat else l.take (l.length - (-k).toNat)

/-- Embedding of `fetch_recent_liked`: the single API response's items are
sliced to the limit and each surviving item is normalized, in order. -/
def fetch_recent_liked (limit : Int) (items : List SavedItem) : List ParsedLiked :=
  (pySliceTo limit items).map parseSaved

/-- `fetch_recent_liked` against an API modelled as a stream of responses:
the body performs exactly one request, consuming only response zero.  The
second component counts the requests issued. -/
def fetch_recent_liked_api (limit : Int) (api : Nat → List SavedItem) :
    List ParsedLiked × Nat :=
  (fetch_recent_liked limit (api 0), 1)

/-- Zero-pad a number to two digits, as `%m`, `%d`, `%H`, `%M` do. -/
def pad2 (n : Nat) : String :=
  if n < 10 then "0" ++ toString n else toString n

/-- Zero-pad a year to four digits, as `%Y` does. -/
def pad4 (n : Nat) : String :=
  if n < 10 then "000" ++ toString n
  else if n < 100 then "00" ++ toString n
  else if n < 1000 then "0" ++ toString n
  else toString n

/-- Model of `added_at.strftime("%Y-%m-%d %H:%M")`. -/
def strftimeYmdHm (d : PyDateTime) : String :=
  pad4 d.year ++ "-" ++ pad2 d.month ++ "-" ++ pad2 d.day ++ " " ++
    pad2 d.hour ++ ":" ++ pad2 d.minute

/-- Model of the format field `{i:>2}`: right-align in width two with
spaces. -/
def fmtIndexW2 (i : Nat) : String :=
  let s := toString i
  if s.length < 2 then " " ++ s else s

/-- The console line printed per row by `main` of
spotify_recent_likes.py. -/
def console_line (i : Nat) (t : ParsedLiked) : String :=
  fmtIndexW2 i ++ ". " ++ t.title ++ " — " ++ t.artists ++
    " (added " ++ strftimeYmdHm t.added_at ++ ")"

/-- Digit run after the first digit of a Python integer literal: single
underscores are allowed between digits only. -/
def pyIntDigitsCore : List Char → Bool
  | [] => true
  | '_' :: [] => false
  | '_' :: c :: cs => c.isDigit && pyIntDigitsCore cs
  | c :: cs => c.isDigit && pyIntDigitsCore cs

/-- A valid unsigned digit string for Python `int()`: nonempty, starting
with a digit. -/
def pyIntDigitStr (l : List Char) : Bool :=
  match l with
  | [] => false
  | c :: cs => c.isDigit && pyIntDigitsCore cs

/-- Numeric value of a digit string, ignoring underscores. -/
def digitsVal (l : List Char) : Nat :=
  l.foldl (fun acc c => if c = '_' then acc else acc * 10 + (c.toNat - 48)) 0

/-- Model of Python `int(s)` on ASCII input: strip whitespace, allow one
sign, then require a valid digit string; `none` models the `ValueError`. -/
def pyParseInt (s : String) : Option Int :=
  match pyStrip s.data with
  | '+' :: rest => if pyIntDigitStr rest then some (Int.ofNat (digitsVal rest)) else none
  | '-' :: rest => if pyIntDigitStr rest then some (-(Int.ofNat (digitsVal rest))) else none
  | rest => if pyIntDigitStr rest then some (Int.ofNat (digitsVal rest)) else none

/-- `DEFAULT_LIMIT` of spotify_recent_likes.py. -/
def DEFAULT_LIMIT : Int := 20

/-- Python truthiness of `os.getenv(var)`: false for an unset variable and
for the empty string. -/
def truthyEnv (env : String → Option String) (v : String) : Bool :=
  match env v with
  | some s => !s.isEmpty
  | none => false

/-- The environment variables checked, in order, by `main` of
spotify_recent_likes.py. -/
def requiredLikedVars : List String :=
  ["SPOTIFY_CLIENT_ID", "SPOTIFY_CLIENT_SECRET", "SPOTIFY_REDIRECT_URI"]

/-- The first required variable whose value is falsy, if any. -/
def firstMissingVar (env : String → Option String) : Option String :=
  requiredLikedVars.find? (fun v => !truthyEnv env v)

/-- Outcome of `main` of spotify_recent_likes.py up to and including the
fetch: the fetch (the only network call) happens only in the `ran` case. -/
inductive LikedMainOutcome where
  | envError (var : String)
  | usageError (msg : String)
  | ran (limit : Int) (networkCalls : Nat)
deriving DecidableEq

/-- Embedding of `main` of spotify_recent_likes.py: env check, then the
`int(sys.argv[1])` parse guarded by the usage error, then the single
fetch.  `args` is the argument list after the script name. -/
def liked_main (env : String → Option String) (args : List String) : LikedMainOutcome :=
  match firstMissingVar env with
  | some v => .envError v
  | none =>
    match args with
    | [] => .ran DEFAULT_LIMIT 1
    | a :: _ =>
      match pyParseInt a with
      | some n => .ran n 1
      | none => .usageError "Usage: python recent_likes.py [number_of_tracks]"

/-- Network calls implied by an outcome of `liked_main`. -/
def likedNetworkCalls : LikedMainOutcome → Nat
  | .ran _ n => n
  | _ => 0

/-! ### Concrete sample inputs used by witnesses and counterexamples -/

/-- The sanitization example input of the specification,
written out character by character. -/
def sanitizeExampleInput : String :=
  String.mk ['M', 'y', '/', 'P', 'l', 'a', 'y', 'l', 'i', 's', 't', ':', ' ',
    'S', 'u', 'm', 'm', 'e', 'r', ' ', '\'', '2', '4', '!']

/-- A 150-character name made entirely of disallowed characters. -/
def slash150 : String := String.mk (List.replicate 150 '/')

/-- A sample raw playlist item with a valid track. -/
def rawItemA : RawItem :=
  { track := some { name := some "Song A", artists := [{ name := "Artist A" }],
                    spotify_url := "https://open.spotify.com/track/aaa" } }

/-- A second sample raw playlist item with a valid track. -/
def rawItemB : RawItem :=
  { track := some { name := some "Song B", artists := [{ name := "Artist B" }],
                    spotify_url := "https://open.spotify.com/track/bbb" } }

/-- A sample raw playlist item whose track payload is null. -/
def rawItemNull : RawItem := { track := none }

/-- A sample raw playlist item whose title is empty. -/
def rawItemEmptyTitle : RawItem :=
  { track := some { name := some "", artists := [], spotify_url := "u" } }

/-- First mock page: one item, `next` set. -/
def pageOne : SpotifyPage := { items := [rawItemA], next := some "page2" }

/-- Second mock page: one item, `next` unset. -/
def pageTwo : SpotifyPage := { items := [rawItemB], next := none }

/-- A sample saved-tracks item. -/
def savedA : SavedItem :=
  { added_at := { year := 2024, month := 1, day := 2, hour := 3, minute := 4 },
    track := { name := "Song A", artists := [{ name := "Artist A" }],
               spotify_url := "https://open.spotify.com/track/aaa" } }

/-- A second sample saved-tracks item. -/
def savedB : SavedItem :=
  { added_at := { year := 2024, month := 2, day := 3, hour := 4, minute := 5 },
    track := { name := "Song B", artists := [{ name := "Artist B" }],
               spotify_url := "https://open.spotify.com/track/bbb" } }

/-- A sample normalized liked-tracks row. -/
def likedSample : ParsedLiked :=
  { title := "Song A", artists := "Artist A",
    added_at := { year := 2024, month := 5, day := 6, hour := 7, minute := 8 },
    spotify_url := "https://open.spotify.com/track/abc" }

/-- A complete environment for the liked-tracks script. -/
def envAllSet : String → Option String := fun _ => some "x"

/-- A sample worksheet whose title collides with the sanitized name
`"My List"`. -/
def wsMyList : Worksheet Cell := { title := "My List", nrows := 1, ncols := 3, values := [] }

/-- A sample TRACK element with two of the eleven attributes present. -/
def xmlTrackSample : XmlTrack :=
  { attrib := [("Name", "Song"), ("Artist", "X")] }

/-! ### Helper lemmas -/

/-- Splitting at the first question mark and then at the first hash sign
keeps exactly the characters before the first of either marker. -/
theorem pySplitHead_query_fragment (l : List Char) :
    pySplitHead '#' (pySplitHead '?' l) = l.takeWhile (fun c => c ≠ '?' && c ≠ '#') := by
  induction l with
  | nil => rfl
  | cons c t ih =>
    by_cases h1 : c = '?'
    · simp [pySplitHead, List.takeWhile_cons, h1]
    · by_cases h2 : c = '#'
      · simp [pySplitHead, List.takeWhile_cons, h1, h2]
      · simpa [pySplitHead, List.takeWhile_cons, h1, h2] using ih

/-- C1: for every input string, identifier extraction first strips any query
string and fragment, then returns the alphanumeric identifier captured by
the URL-path pattern when it matches, otherwise by the URI pattern when it
matches (URL-path form first), and errors when neither matches — i.e. the
embedded `extract_playlist_id` agrees with the claim-worded
`spec_extract_id` everywhere; concrete instances exercise all three
outcomes. -/
theorem extract_playlist_id_matches_spec :
    (∀ url : String, extract_playlist_id url = spec_extract_id url)
    ∧ extract_playlist_id "https://open.spotify.com/playlist/37i9dQZF1DX0XUsuxWHRQd?si=ab#f"
        = .ok "37i9dQZF1DX0XUsuxWHRQd"
    ∧ extract_playlist_id "spotify:playlist:37i9dQZF1DX0XUsuxWHRQd"
        = .ok "37i9dQZF1DX0XUsuxWHRQd"
    ∧ extract_playlist_id "https://example.com/album/xyz"
        = .error "Could not extract playlist ID from URL: https://example.com/album/xyz" := by
  refine ⟨fun url => ?_, rfl, rfl, rfl⟩
  simp only [extract_playlist_id, spec_extract_id, tryPatterns,
    pySplitHead_query_fragment]
  cases reSearch "playlist/".data (url.data.takeWhile fun c => c ≠ '?' && c ≠ '#') with
  | some r => rfl
  | none =>
    cases reSearch "playlist:".data (url.data.takeWhile fun c => c ≠ '?' && c ≠ '#') with
    | some r => rfl
    | none => rfl

/-- The per-page loop equals a filter of the kept items followed by
normalization, so emitted rows come exactly from kept records, in order. -/
theorem processItems_eq_filter_map (items : List RawItem) :
    processItems items = (items.filter keepItem).map normItemD := by
  induction items with
  | nil => rfl
  | cons it rest ih =>
    cases h : it.track with
    | none => simp [processItems, keepItem, List.filter_cons, h, ih]
    | some t =>
      by_cases hn : truthyName t.name
      · simp [processItems, keepItem, normItemD, List.filter_cons, h, hn, ih]
      · simp [processItems, keepItem, List.filter_cons, h, hn, ih]

/-- The records kept and the records dropped partition the input. -/
theorem filter_length_add_filter_not {α : Type} (p : α → Bool) (l : List α) :
    (l.filter p).length + (l.filter (fun a => !p a)).length = l.length := by
  induction l with
  | nil => rfl
  | cons a l ih =>
    by_cases h : p a <;> simp [List.filter_cons, h, ← ih] <;> omega

/-- The first cells of the enumerated data rows are the consecutive indices
starting at the given counter value. -/
theorem buildRows_heads (s : Nat) (ts : List TrackRow) :
    (buildRows s ts).map List.head?
      = (List.range' s ts.length).map (fun i => some (Cell.nat i)) := by
  induction ts generalizing s with
  | nil => rfl
  | cons t ts ih => simp [buildRows, List.range'_succ, ih]

/-- C2: in the playlist variant, an item with a null track or a null/empty
title is never emitted (the emitted rows are exactly the normalizations of
the kept items, in retrieval order), the emitted count is the raw count
minus the dropped count, and the index column over the emitted rows is the
contiguous sequence 1..N. -/
theorem playlist_skip_and_contiguous_index (items : List RawItem) :
    processItems items = (items.filter keepItem).map normItemD
    ∧ (processItems items).length
        = items.length - (items.filter (fun it => !keepItem it)).length
    ∧ (sheetRows (processItems items)).tail = buildRows 1 (processItems items)
    ∧ (buildRows 1 (processItems items)).map List.head?
        = (List.range' 1 (processItems items).length).map (fun i => some (Cell.nat i))
    ∧ processItems [rawItemA, rawItemNull, rawItemEmptyTitle, rawItemB]
        = [normItemD rawItemA, normItemD rawItemB] := by
  refine ⟨processItems_eq_filter_map items, ?_, rfl, buildRows_heads 1 _, rfl⟩
  have h := filter_length_add_filter_not keepItem items
  rw [processItems_eq_filter_map, List.length_map]
  omega

/-- C3: over a well-formed finite page sequence (all but the last page carry
a next-page indicator, the last does not), the pagination loop requests a
next page exactly once per indicator — `rest.length` requests in total —
and returns the concatenation of every page's normalized items in page
order, items within a page in their original order. -/
theorem paginated_fetch_concat (first : SpotifyPage) (rest : List SpotifyPage)
    (h : goodChain first rest = true) :
    fetchAllPages first rest
      = (((first :: rest).map (fun p => processItems p.items)).flatten, rest.length) := by
  induction rest generalizing first with
  | nil =>
    have hn : first.next = none := by
      simpa [goodChain, Option.isNone_iff_eq_none] using h
    simp [fetchAllPages, hn]
  | cons q qs ih =>
    rw [goodChain, Bool.and_eq_true] at h
    obtain ⟨v, hv⟩ := Option.isSome_iff_exists.mp h.1
    have hrec := ih q h.2
    simp [fetchAllPages, hv, hrec]

/-- Witness for C3: two concrete mock pages, the first with `next` set and
the second without, yield page one's row followed by page two's row and a
single next-page request. -/
theorem paginated_fetch_concat_witness :
    fetchAllPages pageOne [pageTwo]
      = ([{ song := "Song A - Artist A", spotify_url := "https://open.spotify.com/track/aaa" },
          { song := "Song B - Artist B", spotify_url := "https://open.spotify.com/track/bbb" }],
         1) :=
  (paginated_fetch_concat pageOne [pageTwo] (by decide)).trans (by decide)

/-- C4 (amended to nonnegative limits): with `0 ≤ L` the liked-tracks
retrieval issues exactly one API request, truncates the response's items to
at most `L`, performs no re-sorting (the result is the normalization of a
leading segment of the input, in input order), and a 25-item response with
limit 20 yields exactly 20 entries. -/
theorem liked_fetch_truncates (L : Int) (items : List SavedItem) (hL : 0 ≤ L) :
    fetch_recent_liked L items = (items.take L.toNat).map parseSaved
    ∧ (fetch_recent_liked L items).length ≤ L.toNat
    ∧ (∀ api : Nat → List SavedItem,
        fetch_recent_liked_api L api = (fetch_recent_liked L (api 0), 1))
    ∧ (items.length = 25 → L = 20 → (fetch_recent_liked L items).length = 20) := by
  have he : fetch_recent_liked L items = (items.take L.toNat).map parseSaved := by
    simp [fetch_recent_liked, pySliceTo, hL]
  refine ⟨he, ?_, fun api => rfl, ?_⟩
  · rw [he]; simp [List.length_map, List.length_take]
  · intro h25 h20
    subst h20
    rw [he]
    simp [List.length_map, List.length_take, h25]

/-- Witness for C4: at limit 20 a 25-item response yields exactly 20
entries. -/
theorem liked_fetch_truncates_witness :
    (fetch_recent_liked 20 (List.replicate 25 savedA)).length = 20 :=
  (liked_fetch_truncates 20 (List.replicate 25 savedA) (by decide)).2.2.2 rfl rfl

/-- Counterexample for C4 as stated: the claim quantifies over every
requested limit, but at the (parseable) limit `-1` the Python slice
`items[:-1]` keeps all but the last item, so a two-item response yields one
entry, which is not "at most L". -/
theorem liked_fetch_negative_limit_counterexample :
    fetch_recent_liked (-1) [savedA, savedB] = [parseSaved savedA]
    ∧ ¬ (((fetch_recent_liked (-1) [savedA, savedB]).length : Int) ≤ -1) := by
  refine ⟨rfl, by decide⟩

/-- C5 (amended to the playlist variant): when the row sequence is empty the
playlist sink prints a message and returns without creating any worksheet;
the file variant (see the counterexample) performs its write even with zero
data rows. -/
theorem playlist_empty_rows_skip (playlist_name : String) (ss : List (Worksheet Cell)) :
    playlist_main_sink playlist_name [] ss
      = .skippedWithMessage "No tracks found in the playlist."
    ∧ ∀ evs sheets, playlist_main_sink playlist_name [] ss ≠ .wrote evs sheets := by
  refine ⟨rfl, fun evs sheets h => ?_⟩
  simp [playlist_main_sink] at h

/-- Counterexample for C5 as stated: in the file variant an empty row
sequence still creates the dated worksheet and writes the header row, so
"no destination is created" fails for that tabular-write run. -/
theorem xml_empty_rows_creates_counterexample :
    (xml_write_flow "2025-04-26" [] []).1
      = [SheetEvent.created "2025-04-26" 1 11, SheetEvent.updated "2025-04-26" [FIELDS]]
    ∧ (xml_write_flow "2025-04-26" [] []).2 ≠ [] := by
  exact ⟨rfl, by decide⟩

/-- Stripping only removes characters. -/
theorem mem_of_mem_pyStrip {c : Char} {l : List Char} (h : c ∈ pyStrip l) : c ∈ l := by
  unfold pyStrip at h
  rw [List.mem_reverse] at h
  have h2 := (List.dropWhile_sublist isPySpace).subset h
  rw [List.mem_reverse] at h2
  exact (List.dropWhile_sublist isPySpace).subset h2

/-- Dropping a prefix by a predicate nothing satisfies is the identity. -/
theorem dropWhile_eq_self_of_not {α : Type} {p : α → Bool} {l : List α}
    (h : ∀ a ∈ l, p a = false) : l.dropWhile p = l := by
  cases l with
  | nil => rfl
  | cons a t => simp [List.dropWhile_cons, h a (by simp)]

/-- Stripping a whitespace-free string is the identity. -/
theorem pyStrip_eq_self {l : List Char} (h : ∀ c ∈ l, isPySpace c = false) :
    pyStrip l = l := by
  unfold pyStrip
  rw [dropWhile_eq_self_of_not h,
    dropWhile_eq_self_of_not (fun c hc => h c (List.mem_reverse.mp hc)),
    List.reverse_reverse]

/-- An alphanumeric character is not Python whitespace. -/
theorem alnum_not_pySpace {c : Char} (h : c.isAlphanum = true) : isPySpace c = false := by
  by_contra hb
  rw [Bool.not_eq_false, isPySpace] at hb
  simp only [Bool.or_eq_true, decide_eq_true_eq] at hb
  rcases hb with ((((h1 | h1) | h1) | h1) | h1) | h1 <;> subst h1 <;>
    exact absurd h (by decide)

/-- Unfolding of the sanitization body as a plain conditional. -/
theorem sanitize_sheet_name_eq (s : String) :
    sanitize_sheet_name s =
      if (pyStrip (s.data.filter keepSheetChar)).length > 100
      then String.mk ((pyStrip (s.data.filter keepSheetChar)).take 100)
      else String.mk (pyStrip (s.data.filter keepSheetChar)) := rfl

/-- C6 (amended in its truncation example to 150-character names the
allow-list keeps): sanitization keeps only allow-listed characters, caps
the length at 100, maps the specification's example input to
`"MyPlaylist Summer 24"`, and cuts any 150-character alphanumeric name to
exactly 100 characters. -/
theorem sanitize_sheet_name_spec :
    (∀ s : String, (sanitize_sheet_name s).length ≤ 100
      ∧ ∀ c ∈ (sanitize_sheet_name s).data, keepSheetChar c = true)
    ∧ sanitize_sheet_name sanitizeExampleInput = "MyPlaylist Summer 24"
    ∧ ∀ name : String, (∀ c ∈ name.data, c.isAlphanum = true) →
        name.length = 150 → (sanitize_sheet_name name).length = 100 := by
  refine ⟨fun s => ⟨?_, fun c hc => ?_⟩, rfl, fun name hAl h150 => ?_⟩
  · rw [sanitize_sheet_name_eq]
    split
    · simp [String.length]
    · simp only [String.length]
      omega
  · have hmem : c ∈ pyStrip (s.data.filter keepSheetChar) := by
      rw [sanitize_sheet_name_eq] at hc
      split at hc
      · exact (List.take_sublist 100 _).subset hc
      · exact hc
    exact List.of_mem_filter (mem_of_mem_pyStrip hmem)
  · have hfilter : name.data.filter keepSheetChar = name.data :=
      List.filter_eq_self.mpr fun c hc => by
        simp [keepSheetChar, isWordChar, hAl c hc]
    have hstrip : pyStrip (name.data.filter keepSheetChar) = name.data := by
      rw [hfilter]
      exact pyStrip_eq_self fun c hc => alnum_not_pySpace (hAl c hc)
    have hlen : name.data.length = 150 := h150
    rw [sanitize_sheet_name_eq, hstrip, if_pos (by omega)]
    simp [String.length, List.length_take, hlen]

set_option maxRecDepth 8192 in
/-- Witness for C6: a concrete 150-character alphanumeric name sanitizes to
exactly 100 characters. -/
theorem sanitize_sheet_name_spec_witness :
    (sanitize_sheet_name (String.mk (List.replicate 150 'a'))).length = 100 :=
  sanitize_sheet_name_spec.2.2 (String.mk (List.replicate 150 'a'))
    (by decide) (by decide)

set_option maxRecDepth 8192 in
/-- Counterexample for C6 as stated: not every 150-character name truncates
to 100 characters — a name of 150 slashes sanitizes to the empty string. -/
theorem sanitize_sheet_name_counterexample :
    slash150.length = 150
    ∧ (sanitize_sheet_name slash150).length = 0
    ∧ (sanitize_sheet_name slash150).length ≠ 100 := by
  refine ⟨by decide, by decide, by decide⟩

/-- C7: with the required environment variables present, a command-line
argument that does not parse as a Python integer makes the liked-tracks
program exit with the usage-error message having issued no network call,
and with no argument the limit defaults to 20. -/
theorem liked_usage_error_before_network (env : String → Option String)
    (henv : firstMissingVar env = none) :
    (∀ a rest, pyParseInt a = none →
       liked_main env (a :: rest)
         = .usageError "Usage: python recent_likes.py [number_of_tracks]"
       ∧ likedNetworkCalls (liked_main env (a :: rest)) = 0)
    ∧ liked_main env [] = .ran 20 1 := by
  constructor
  · intro a rest hp
    constructor <;> simp [liked_main, henv, hp, likedNetworkCalls]
  · simp [liked_main, henv, DEFAULT_LIMIT]

/-- Witness for C7: with a fully set environment, the non-integer argument
`"abc"` yields the usage error and the empty argument list runs with limit
20. -/
theorem liked_usage_error_before_network_witness :
    liked_main envAllSet ["abc"]
      = .usageError "Usage: python recent_likes.py [number_of_tracks]"
    ∧ liked_main envAllSet [] = .ran 20 1 := by
  have h := liked_usage_error_before_network envAllSet rfl
  exact ⟨(h.1 "abc" [] rfl).1, h.2⟩

/-- When a worksheet with the target name exists, the write flow deletes it
first: the event trace is delete, then create, then update. -/
theorem replaceWorksheetFlow_found {α : Type} [DecidableEq α]
    (ss : List (Worksheet α)) (name : String) (nrows ncols : Nat)
    (payload : List (List α)) (h : ∃ w ∈ ss, w.title = name) :
    (replaceWorksheetFlow ss name nrows ncols payload).1
      = [SheetEvent.deleted name, SheetEvent.created name nrows ncols,
         SheetEvent.updated name payload] := by
  unfold replaceWorksheetFlow gspread_worksheet
  cases hf : ss.find? (fun w => w.title == name) with
  | some w => simp
  | none =>
    rw [List.find?_eq_none] at hf
    obtain ⟨w, hw, ht⟩ := h
    exact absurd (by simp [ht]) (hf w hw)

/-- When no worksheet has the target name, the not-found error is swallowed
and the flow proceeds: it creates and updates the new worksheet, leaving
every existing worksheet in place. -/
theorem replaceWorksheetFlow_absent {α : Type} [DecidableEq α]
    (ss : List (Worksheet α)) (name : String) (nrows ncols : Nat)
    (payload : List (List α)) (h : ∀ w ∈ ss, w.title ≠ name) :
    replaceWorksheetFlow ss name nrows ncols payload
      = ([SheetEvent.created name nrows ncols, SheetEvent.updated name payload],
         ss ++ [{ title := name, nrows := nrows, ncols := ncols, values := payload }]) := by
  unfold replaceWorksheetFlow gspread_worksheet
  cases hf : ss.find? (fun w => w.title == name) with
  | some w =>
    have hp := List.find?_some hf
    have hmem := List.mem_of_find?_eq_some hf
    exact absurd (by simpa using hp) (h w hmem)
  | none => simp

/-- C8: in both tabular-write variants, a pre-existing destination with the
exact (for the playlist variant, sanitized) target name is deleted before
the new destination is created, and its absence is swallowed as a non-error
with the run proceeding to create and write. -/
theorem worksheet_replace_on_rerun (pname : String) (tracks : List TrackRow)
    (ss : List (Worksheet Cell)) (dname : String) (rows : List (List String))
    (ss2 : List (Worksheet String)) :
    ((∃ w ∈ ss, w.title = sanitize_sheet_name pname) →
       (create_sheets_worksheet pname tracks ss).1
         = [SheetEvent.deleted (sanitize_sheet_name pname),
            SheetEvent.created (sanitize_sheet_name pname) (tracks.length + 1) 3,
            SheetEvent.updated (sanitize_sheet_name pname) (sheetRows tracks)])
    ∧ ((∀ w ∈ ss, w.title ≠ sanitize_sheet_name pname) →
       create_sheets_worksheet pname tracks ss
         = ([SheetEvent.created (sanitize_sheet_name pname) (tracks.length + 1) 3,
             SheetEvent.updated (sanitize_sheet_name pname) (sheetRows tracks)],
            ss ++ [{ title := sanitize_sheet_name pname, nrows := tracks.length + 1,
                     ncols := 3, values := sheetRows tracks }]))
    ∧ ((∃ w ∈ ss2, w.title = dname) →
       (xml_write_flow dname rows ss2).1
         = [SheetEvent.deleted dname,
            SheetEvent.created dname (rows.length + 1) FIELDS.length,
            SheetEvent.updated dname (FIELDS :: rows)])
    ∧ ((∀ w ∈ ss2, w.title ≠ dname) →
       xml_write_flow dname rows ss2
         = ([SheetEvent.created dname (rows.length + 1) FIELDS.length,
             SheetEvent.updated dname (FIELDS :: rows)],
            ss2 ++ [{ title := dname, nrows := rows.length + 1,
                      ncols := FIELDS.length, values := FIELDS :: rows }])) := by
  refine ⟨fun h => ?_, fun h => ?_, fun h => ?_, fun h => ?_⟩
  · exact replaceWorksheetFlow_found ss (sanitize_sheet_name pname)
      (tracks.length + 1) 3 (sheetRows tracks) h
  · exact replaceWorksheetFlow_absent ss (sanitize_sheet_name pname)
      (tracks.length + 1) 3 (sheetRows tracks) h
  · exact replaceWorksheetFlow_found ss2 dname (rows.length + 1) FIELDS.length
      (FIELDS :: rows) h
  · exact replaceWorksheetFlow_absent ss2 dname (rows.length + 1) FIELDS.length
      (FIELDS :: rows) h

/-- Witness for C8: a spreadsheet already holding a worksheet titled
`"My List"` (the sanitized form of the playlist name `"My List"`) sees the
delete-then-create trace; an empty spreadsheet sees only create and
update. -/
theorem worksheet_replace_on_rerun_witness :
    (create_sheets_worksheet "My List" [] [wsMyList]).1
      = [SheetEvent.deleted (sanitize_sheet_name "My List"),
         SheetEvent.created (sanitize_sheet_name "My List") 1 3,
         SheetEvent.updated (sanitize_sheet_name "My List") (sheetRows [])]
    ∧ create_sheets_worksheet "My List" [] []
      = ([SheetEvent.created (sanitize_sheet_name "My List") 1 3,
          SheetEvent.updated (sanitize_sheet_name "My List") (sheetRows [])],
         [{ title := sanitize_sheet_name "My List", nrows := 1, ncols := 3,
            values := sheetRows [] }]) := by
  have h1 := (worksheet_replace_on_rerun "My List" [] [wsMyList] "d" [] []).1
  have h2 := (worksheet_replace_on_rerun "My List" [] [] "d" [] []).2.1
  exact ⟨h1 ⟨wsMyList, by decide, by decide⟩, h2 (by decide)⟩

/-- A leading segment matches itself followed by anything. -/
theorem startsWith_append_self : ∀ (n post : List Char), startsWith n (n ++ post) = true
  | [], _ => rfl
  | a :: as, post => by simp [startsWith, startsWith_append_self as post]

/-- `occursIn` finds a needle that is present by construction. -/
theorem occursIn_append (pre n post : List Char) : occursIn n (pre ++ n ++ post) = true := by
  induction pre with
  | nil =>
    rw [List.nil_append]
    cases hnp : n ++ post with
    | nil =>
      have hn : n = [] := (List.append_eq_nil.mp hnp).1
      simp [occursIn, hn, startsWith]
    | cons c tcs =>
      have hsw := startsWith_append_self n post
      rw [hnp] at hsw
      simp [occursIn, hsw]
  | cons c cs ih =>
    simp only [List.cons_append, occursIn, Bool.or_eq_true]
    right
    simpa [List.append_assoc] using ih

/-- C9 (amended: the printed line carries the index, title, artists and
formatted timestamp, but not the external link): every console line of the
liked-tracks variant contains the 1-based index, the title, the
comma-joined artist string and the `"YYYY-MM-DD HH:MM"`-formatted
`added_at` as contiguous segments. -/
theorem console_line_contains (i : Nat) (t : ParsedLiked) :
    (∃ pre post : String, console_line i t = pre ++ toString i ++ post)
    ∧ (∃ pre post : String, console_line i t = pre ++ t.title ++ post)
    ∧ (∃ pre post : String, console_line i t = pre ++ t.artists ++ post)
    ∧ (∃ pre post : String,
        console_line i t = pre ++ strftimeYmdHm t.added_at ++ post) := by
  refine ⟨?_, ?_, ?_, ?_⟩
  · by_cases h : (toString i).length < 2
    · refine ⟨" ", ". " ++ t.title ++ " — " ++ t.artists ++ " (added " ++
        strftimeYmdHm t.added_at ++ ")", ?_⟩
      apply String.ext
      simp [console_line, fmtIndexW2, h]
    · refine ⟨"", ". " ++ t.title ++ " — " ++ t.artists ++ " (added " ++
        strftimeYmdHm t.added_at ++ ")", ?_⟩
      apply String.ext
      simp [console_line, fmtIndexW2, h]
  · refine ⟨fmtIndexW2 i ++ ". ", " — " ++ t.artists ++ " (added " ++
      strftimeYmdHm t.added_at ++ ")", ?_⟩
    apply String.ext
    simp [console_line]
  · refine ⟨fmtIndexW2 i ++ ". " ++ t.title ++ " — ", " (added " ++
      strftimeYmdHm t.added_at ++ ")", ?_⟩
    apply String.ext
    simp [console_line]
  · refine ⟨fmtIndexW2 i ++ ". " ++ t.title ++ " — " ++ t.artists ++
      " (added ", ")", ?_⟩
    apply String.ext
    simp [console_line]

/-- Counterexample for C9 as stated: the printed line does not contain the
external link — for a concrete row whose link is a spotify track URL, no
decomposition of the line around that link exists. -/
theorem console_line_no_link_counterexample :
    ¬ ∃ pre post : String,
        console_line 1 likedSample = pre ++ likedSample.spotify_url ++ post := by
  rintro ⟨pre, post, h⟩
  have hd := congrArg String.data h
  simp only [String.data_append] at hd
  have ho := occursIn_append pre.data likedSample.spotify_url.data post.data
  rw [← hd] at ho
  exact absurd ho (by decide)

/-- C10: in the file variant every emitted row has exactly eleven entries,
one per name of the fixed `FIELDS` order — each entry being the element's
attribute value, or the empty string when the attribute is absent — and the
written payload (header plus data rows) is rectangular with `FIELDS.length`
columns. -/
theorem xml_row_shape (t : XmlTrack) (i : Nat) (hi : i < FIELDS.length)
    (tracks : List XmlTrack) :
    (trackRow t).length = 11
    ∧ FIELDS.length = 11
    ∧ (trackRow t).getD i "" = (t.attrib.lookup (FIELDS.getD i "")).getD ""
    ∧ ∀ r ∈ (FIELDS :: xml_rows tracks), r.length = FIELDS.length := by
  refine ⟨rfl, rfl, ?_, ?_⟩
  · rcases e : FIELDS[i]? with _ | fld
    · rw [List.getElem?_eq_none_iff] at e
      omega
    · simp [trackRow, List.getD_eq_getElem?_getD, List.getElem?_map, e]
  · intro r hr
    rcases List.mem_cons.mp hr with h | h
    · rw [h]
    · obtain ⟨tr, _, rfl⟩ := List.mem_map.mp h
      simp [trackRow]

/-- Witness for C10: a concrete TRACK element with two attributes present
has an 11-entry row whose second entry is the `Name` attribute value. -/
theorem xml_row_shape_witness :
    (trackRow xmlTrackSample).getD 1 ""
      = (xmlTrackSample.attrib.lookup (FIELDS.getD 1 "")).getD ""
    ∧ (trackRow xmlTrackSample).length = 11 := by
  have h := xml_row_shape xmlTrackSample 1 (by decide) []
  exact ⟨h.2.2.1, h.1⟩
